import Mathlib

/-!
Verification of the `option_map_unwrap_or` lint
(`clippy_lints/src/methods/option_map_unwrap_or.rs`).

The development shallowly embeds the lint's `check` function together with
its two helper visitors (`UnwrapVisitor`, which collects the binding
identities referenced inside the `unwrap_or` argument, and
`ReferenceVisitor`, which scans the enclosing body for a reference to one
of those bindings positioned before the `unwrap_or` argument's span) and
proves the specified properties about them.

Host facilities that the lint consumes through an interface
(`is_type_diagnostic_item`, `is_copy`, HIR lookup of a binding pattern,
snippet extraction) are passed in as oracle fields of `LintInput`.
-/

/-- A source span: a half-open byte range plus a macro-expansion context
tag, mirroring `rustc_span::Span` (via its `SpanData`). -/
structure Span where
  lo : Nat
  hi : Nat
  ctxt : Nat
deriving DecidableEq, Repr

namespace Span

/-- `Span::with_lo`: replace the low position, keep `hi` and `ctxt`. -/
def with_lo (s : Span) (lo : Nat) : Span := ⟨lo, s.hi, s.ctxt⟩

/-- `Span::with_hi`: replace the high position, keep `lo` and `ctxt`. -/
def with_hi (s : Span) (hi : Nat) : Span := ⟨s.lo, hi, s.ctxt⟩

/-- The strict order `<` on `rustc_span::Span`: lexicographic comparison
of `(lo, hi, ctxt)` (the `Ord` impl compares the `SpanData` fields in
declaration order). -/
def lt (a b : Span) : Bool :=
  a.lo < b.lo || (a.lo == b.lo && (a.hi < b.hi || (a.hi == b.hi && a.ctxt < b.ctxt)))

end Span

/-- Path resolution result, mirroring the cases of `rustc_hir::def::Res`
that the lint distinguishes: a local binding (`Res::Local(HirId)`) versus
everything else. -/
inductive Res where
  | Local (id : Nat)
  | NonLocal
deriving DecidableEq, Repr

/-- Expression kind, mirroring the cases of `rustc_hir::ExprKind` that the
lint distinguishes: a resolved path (`ExprKind::Path(QPath::Resolved(..))`
carrying a `Res`) versus every other kind of expression. -/
inductive ExprKind where
  | Path (r : Res)
  | Other
deriving DecidableEq, Repr

/-- An HIR expression node: id, span, kind, and child expressions.  The
children include nested bodies (closure bodies), matching the visitors'
`NestedFilter = nested_filter::All`. -/
inductive Expr where
  | mk (hirId : Nat) (span : Span) (kind : ExprKind) (children : List Expr)

/-- The node's span. -/
def Expr.span : Expr → Span
  | .mk _ sp _ _ => sp

/-- The node's kind. -/
def Expr.kind : Expr → ExprKind
  | .mk _ _ k _ => k

/-- The node's children. -/
def Expr.children : Expr → List Expr
  | .mk _ _ _ ch => ch

mutual
/-- All nodes of an expression tree, in depth-first preorder. -/
def exprNodes : Expr → List Expr
  | .mk i sp k ch => .mk i sp k ch :: exprNodesList ch
/-- All nodes of a forest, in depth-first preorder. -/
def exprNodesList : List Expr → List Expr
  | [] => []
  | e :: es => exprNodes e ++ exprNodesList es
end

/-- The HIR lookup `cx.tcx.hir().find(local_id)` restricted to what both
visitors ask of it: `bp l = some x` means the node at id `l` is a pattern
whose kind is `PatKind::Binding(_, x, ..)`; `bp l = none` means the lookup
or the pattern match fails. -/
abbrev BindingLookup := Nat → Option Nat

/-- The binding identity that a path expression of kind `k` contributes:
for `ExprKind::Path` resolving to `Res::Local(l)` whose HIR node is a
binding pattern with id `x`, this is `some x`; otherwise `none`.  This is
the test shared by `UnwrapVisitor::visit_path` and
`ReferenceVisitor::visit_expr`. -/
def kindBinding (bp : BindingLookup) : ExprKind → Option Nat
  | .Path (.Local l) => bp l
  | _ => none

namespace UnwrapVisitor

mutual
/-- `UnwrapVisitor`'s traversal of one expression: for every path node that
resolves to a local binding pattern, record that pattern's binding id
(`identifiers.insert(local_id)`); recurse into all children. -/
def visitExpr (bp : BindingLookup) : Expr → List Nat
  | .mk _ _ k ch =>
    (match kindBinding bp k with
     | some x => [x]
     | none => []) ++ visitList bp ch
/-- `UnwrapVisitor`'s traversal of a forest of children. -/
def visitList (bp : BindingLookup) : List Expr → List Nat
  | [] => []
  | e :: es => visitExpr bp e ++ visitList bp es
end

end UnwrapVisitor

/-- Whether a node is a path reference resolving to a binding identity in
`ids` (the non-span half of `ReferenceVisitor::visit_expr`'s test). -/
def pathRefsIdentifiers (bp : BindingLookup) (ids : List Nat) (e : Expr) : Bool :=
  match kindBinding bp e.kind with
  | some x => ids.contains x
  | none => false

/-- The per-node test of `ReferenceVisitor::visit_expr`: the node's span is
`<` the `unwrap_or` argument's span (the strict `Span` order) and the node
is a path resolving to a binding identity in `identifiers`. -/
def refTest (bp : BindingLookup) (ids : List Nat) (target : Span) (e : Expr) : Bool :=
  Span.lt e.span target && pathRefsIdentifiers bp ids e

namespace ReferenceVisitor

mutual
/-- `ReferenceVisitor::visit_expr`: if `found_reference` is already set, do
nothing; otherwise set it when the node passes `refTest`, then walk the
children (which see the updated flag). Returns the final flag. -/
def visitExpr (bp : BindingLookup) (ids : List Nat) (target : Span)
    (found : Bool) : Expr → Bool
  | .mk i sp k ch =>
    if found then true
    else visitList bp ids target (refTest bp ids target (.mk i sp k ch)) ch
/-- Sequential traversal of children, threading the `found_reference`
flag. -/
def visitList (bp : BindingLookup) (ids : List Nat) (target : Span)
    (found : Bool) : List Expr → Bool
  | [] => found
  | e :: es => visitList bp ids target (visitExpr bp ids target found e) es
end

end ReferenceVisitor

mutual
/-- Whether any node of the tree passes `refTest` (specification-side
existence predicate used to characterise `ReferenceVisitor`). -/
def anyConflict (bp : BindingLookup) (ids : List Nat) (target : Span) : Expr → Bool
  | .mk i sp k ch =>
    refTest bp ids target (.mk i sp k ch) || anyConflictList bp ids target ch
/-- Whether any node of the forest passes `refTest`. -/
def anyConflictList (bp : BindingLookup) (ids : List Nat) (target : Span) :
    List Expr → Bool
  | [] => false
  | e :: es => anyConflict bp ids target e || anyConflictList bp ids target es
end

/-- `rustc_errors::Applicability` (the variants the lint can produce). -/
inductive Applicability where
  | MachineApplicable
  | MaybeIncorrect
  | HasPlaceholders
  | Unspecified
deriving DecidableEq, Repr

/-- The diagnostic emitted through `span_lint_and_then` +
`multipart_suggestion`: lint location, message, suggestion label, the
multipart replacement list, and the applicability tag. -/
structure Diagnostic where
  lintSpan : Span
  msg : String
  helpMsg : String
  suggestion : List (Span × String)
  applicability : Applicability
deriving DecidableEq, Repr

/-- Modelled from the spec: the host's source-text snippet extractor
(`clippy_utils::source::snippet_with_applicability`, which is not part of
this component's sources).  Per the spec, it returns the extracted text
for a span, and when extraction cannot guarantee text fidelity it returns
the supplied placeholder text and downgrades a machine-applicable tag to
one requiring manual review (`HasPlaceholders`).  `snip` is the host's
extraction oracle; `none` means fidelity cannot be guaranteed. -/
def snippet_with_applicability (snip : Span → Option String) (span : Span)
    (deflt : String) (applicability : Applicability) : String × Applicability :=
  match snip span with
  | some s => (s, applicability)
  | none =>
    (deflt,
     if applicability = Applicability.MachineApplicable then
       Applicability.HasPlaceholders
     else applicability)

/-- The arguments of `check`, together with the host-supplied oracle
answers it consults:
* `expr`, `mapArg`, `unwrapRecv`, `unwrapArg`, `mapSpan` — the candidate
  chain `recv.map(map_arg).unwrap_or(unwrap_arg)` handed over by the
  method-lint dispatcher;
* `recvIsOption` — `is_type_diagnostic_item(cx, expr_ty(recv), sym::Option)`;
* `unwrapArgIsCopy` — `is_copy(cx, expr_ty(unwrap_arg))`;
* `body` — the value of the enclosing body
  (`map.body(map.body_owned_by(map.enclosing_body_owner(expr.hir_id)))`);
* `bindingPat` — the HIR binding-pattern lookup;
* `snippetOpt` — the snippet-extraction oracle. -/
structure LintInput where
  expr : Expr
  recvIsOption : Bool
  unwrapArgIsCopy : Bool
  mapArg : Expr
  unwrapRecv : Expr
  unwrapArg : Expr
  mapSpan : Span
  body : Expr
  bindingPat : BindingLookup
  snippetOpt : Span → Option String

/-- The identifier set built by running `UnwrapVisitor` over the
`unwrap_or` argument (`unwrap_visitor.visit_expr(unwrap_arg)`); this is the
set handed to `ReferenceVisitor`. -/
def collectedIdentifiers (i : LintInput) : List Nat :=
  UnwrapVisitor.visitExpr i.bindingPat i.unwrapArg

/-- The verdict of running `ReferenceVisitor` over the enclosing body with
the collected identifiers and `unwrap_or_span = unwrap_arg.span`
(`reference_visitor.found_reference` after `visit_body`). -/
def conflictFound (i : LintInput) : Bool :=
  ReferenceVisitor.visitExpr i.bindingPat (collectedIdentifiers i)
    i.unwrapArg.span false i.body

/-- The diagnostic built by the tail of `check` once every guard has
passed: the snippet extraction, the `"None"` special case, the lint
message, and the multipart suggestion handed to `span_lint_and_then` /
`multipart_suggestion`. -/
def emittedDiagnostic (i : LintInput) : Diagnostic :=
  let snippetApp :=
    snippet_with_applicability i.snippetOpt i.unwrapArg.span ".."
      Applicability.MachineApplicable
  let unwrap_snippet := snippetApp.1
  let applicability := snippetApp.2
  let arg := if unwrap_snippet == "None" then "None" else "<a>"
  let unwrap_snippet_none := unwrap_snippet == "None"
  let suggest :=
    if unwrap_snippet_none then "and_then(<f>)" else "map_or(<a>, <f>)"
  let msg :=
    "called `map(<f>).unwrap_or(" ++ arg ++ ")` on an `Option` value. " ++
      "This can be done more directly by calling `" ++ suggest ++ "` instead"
  let base :=
    [(i.mapSpan, if unwrap_snippet_none then "and_then" else "map_or"),
     (Span.with_lo i.expr.span i.unwrapRecv.span.hi, "")]
  let suggestion :=
    if !unwrap_snippet_none then
      base ++ [(Span.with_hi i.mapArg.span i.mapArg.span.lo, unwrap_snippet ++ ", ")]
    else base
  ⟨i.expr.span, msg, "use `" ++ suggest ++ "` instead", suggestion, applicability⟩

/-- The lint's `check` function.  Returns the emitted diagnostic, or `none`
when it declines to lint: it proceeds only when the receiver's type is
`Option`, the move-hazard scan (run only for a non-`Copy` `unwrap_or`
argument) found no earlier reference, and the `unwrap_or` argument's span
shares its expansion context with the `map` call's span. -/
def check (i : LintInput) : Option Diagnostic :=
  if i.recvIsOption then
    if !i.unwrapArgIsCopy && conflictFound i then none
    else if i.unwrapArg.span.ctxt ≠ i.mapSpan.ctxt then none
    else some (emittedDiagnostic i)
  else none

/-- Replace the enclosing-body and binding-lookup oracle answers of a
`LintInput`, keeping every other component. -/
def withBodyBinding (i : LintInput) (b : Expr) (bp : BindingLookup) : LintInput :=
  ⟨i.expr, i.recvIsOption, i.unwrapArgIsCopy, i.mapArg, i.unwrapRecv, i.unwrapArg,
   i.mapSpan, b, bp, i.snippetOpt⟩

/-! ## Concrete example inputs

These model small Rust candidates such as
`o.map(|v| f(v)).unwrap_or(x)` (chain span 0–12, `map` name span 2–5,
map argument span 4–6, `unwrap_or` argument `x` at span 10–11 resolving to
the local binding 5). -/

/-- The `o.map(|v| f(v))` sub-expression (the `unwrap_or` receiver). -/
def exMapCall : Expr := .mk 1 ⟨0, 7, 0⟩ .Other []

/-- The closure passed to `map`. -/
def exMapArg : Expr := .mk 2 ⟨4, 6, 0⟩ .Other []

/-- The `unwrap_or` argument `x`: a path to local binding 5. -/
def exUnwrapArgPath : Expr := .mk 3 ⟨10, 11, 0⟩ (.Path (.Local 5)) []

/-- The whole chain `o.map(|v| f(v)).unwrap_or(x)`. -/
def exChain : Expr := .mk 0 ⟨0, 12, 0⟩ .Other [exMapCall, exUnwrapArgPath]

/-- Binding lookup: HIR id 5 is a binding pattern with binding id 5. -/
def exBindingPat : BindingLookup := fun l => if l == 5 then some 5 else none

/-- Snippet oracle: span 10–11 reads `x`. -/
def exSnippet : Span → Option String :=
  fun sp => if sp == (⟨10, 11, 0⟩ : Span) then some "x" else none

/-- A conflict-free candidate with a non-`Copy` fallback argument. -/
def exOk : LintInput :=
  ⟨exChain, true, false, exMapArg, exMapCall, exUnwrapArgPath, ⟨2, 5, 0⟩,
   exChain, exBindingPat, exSnippet⟩

/-- The `unwrap_or(None)` argument: a path to a non-local def (`None`). -/
def exNoneArg : Expr := .mk 3 ⟨10, 14, 0⟩ (.Path .NonLocal) []

/-- The chain `o.map(|v| f(v)).unwrap_or(None)`. -/
def exChainNone : Expr := .mk 0 ⟨0, 15, 0⟩ .Other [exMapCall, exNoneArg]

/-- A candidate whose fallback argument's source text is exactly `None`. -/
def exNone : LintInput :=
  ⟨exChainNone, true, false, exMapArg, exMapCall, exNoneArg, ⟨2, 5, 0⟩,
   exChainNone, exBindingPat,
   fun sp => if sp == (⟨10, 14, 0⟩ : Span) then some "None" else none⟩

/-- The receiver `x` of `x.get(0..1).map(..)`: an earlier path to
binding 5 (as in the issue-10579 example). -/
def exRecvPath : Expr := .mk 9 ⟨0, 1, 0⟩ (.Path (.Local 5)) []

/-- A `map` call whose receiver references binding 5. -/
def exMapCallConflict : Expr := .mk 1 ⟨0, 7, 0⟩ .Other [exRecvPath]

/-- The chain `x.get(0..1).map(|s| s.to_vec()).unwrap_or(x)`. -/
def exChainConflict : Expr := .mk 0 ⟨0, 12, 0⟩ .Other [exMapCallConflict, exUnwrapArgPath]

/-- A move-only candidate with a conflicting earlier reference. -/
def exConflict : LintInput :=
  ⟨exChainConflict, true, false, exMapArg, exMapCallConflict, exUnwrapArgPath, ⟨2, 5, 0⟩,
   exChainConflict, exBindingPat, exSnippet⟩

/-- The same conflicting candidate, but with a `Copy` fallback argument. -/
def exCopy : LintInput :=
  ⟨exChainConflict, true, true, exMapArg, exMapCallConflict, exUnwrapArgPath, ⟨2, 5, 0⟩,
   exChainConflict, exBindingPat, exSnippet⟩

/-- A candidate whose `map` span carries a different expansion context
(tag 1) from the `unwrap_or` argument (tag 0). -/
def exCtxt : LintInput :=
  ⟨exChain, true, false, exMapArg, exMapCall, exUnwrapArgPath, ⟨2, 5, 1⟩,
   exChain, exBindingPat, exSnippet⟩

/-- A candidate whose receiver is not an `Option`. -/
def exNotOption : LintInput :=
  ⟨exChain, false, false, exMapArg, exMapCall, exUnwrapArgPath, ⟨2, 5, 0⟩,
   exChain, exBindingPat, exSnippet⟩

/-- A candidate whose snippet extraction cannot guarantee fidelity. -/
def exSnipFail : LintInput :=
  ⟨exChain, true, false, exMapArg, exMapCall, exUnwrapArgPath, ⟨2, 5, 0⟩,
   exChain, exBindingPat, fun _ => none⟩

/-- The path `x` inside `unwrap_or(x.clone())`, sharing the argument's
start position. -/
def exClonePath : Expr := .mk 4 ⟨10, 11, 0⟩ (.Path (.Local 5)) []

/-- The `unwrap_or` argument `x.clone()` (span 10–19). -/
def exCloneArg : Expr := .mk 3 ⟨10, 19, 0⟩ .Other [exClonePath]

/-- The chain `o.map(|v| f(v)).unwrap_or(x.clone())`. -/
def exChainClone : Expr := .mk 0 ⟨0, 20, 0⟩ .Other [exMapCall, exCloneArg]

/-- A candidate whose only references to the collected binding sit inside
the fallback argument itself (none starts strictly before it). -/
def exClone : LintInput :=
  ⟨exChainClone, true, false, exMapArg, exMapCall, exCloneArg, ⟨2, 5, 0⟩,
   exChainClone, exBindingPat,
   fun sp => if sp == (⟨10, 19, 0⟩ : Span) then some "x.clone()" else none⟩

/-- A path inside the `map` closure referencing a different local
binding 7. -/
def exMapClosurePath : Expr := .mk 8 ⟨5, 6, 0⟩ (.Path (.Local 7)) []

/-- A `map` closure argument that references binding 7. -/
def exMapArgT : Expr := .mk 2 ⟨4, 6, 0⟩ .Other [exMapClosurePath]

/-- Binding lookup knowing bindings 5 and 7. -/
def exBindingPatT : BindingLookup :=
  fun l => if l == 5 then some 5 else if l == 7 then some 7 else none

/-- A candidate whose `map` argument references binding 7 while the
`unwrap_or` argument references binding 5. -/
def exDistinct : LintInput :=
  ⟨exChain, true, false, exMapArgT, exMapCall, exUnwrapArgPath, ⟨2, 5, 0⟩,
   exChain, exBindingPatT, exSnippet⟩

/-! ## Helper lemmas about the visitors -/

/-- Starting the low position strictly earlier makes a span strictly
smaller in the `Span` order. -/
theorem span_lt_of_lo_lt (a b : Span) (h : a.lo < b.lo) : Span.lt a b = true := by
  simp [Span.lt, h]

mutual
/-- Once `found_reference` is set, `ReferenceVisitor::visit_expr` returns
immediately with it still set. -/
theorem refVisitExpr_absorb (bp : BindingLookup) (ids : List Nat) (t : Span)
    (e : Expr) : ReferenceVisitor.visitExpr bp ids t true e = true := by
  cases e with
  | mk i sp k ch => simp [ReferenceVisitor.visitExpr]
/-- Once `found_reference` is set, walking further children leaves it
set. -/
theorem refVisitList_absorb (bp : BindingLookup) (ids : List Nat) (t : Span)
    (es : List Expr) : ReferenceVisitor.visitList bp ids t true es = true := by
  cases es with
  | nil => simp [ReferenceVisitor.visitList]
  | cons e es =>
    rw [ReferenceVisitor.visitList, refVisitExpr_absorb]
    exact refVisitList_absorb bp ids t es
end

mutual
/-- `ReferenceVisitor::visit_expr` computes exactly: the incoming flag, or
the existence of a node passing `refTest` in the subtree. -/
theorem refVisitExpr_eq_any (bp : BindingLookup) (ids : List Nat) (t : Span)
    (found : Bool) (e : Expr) :
    ReferenceVisitor.visitExpr bp ids t found e =
      (found || anyConflict bp ids t e) := by
  cases e with
  | mk i sp k ch =>
    cases found with
    | true => rw [refVisitExpr_absorb]; simp
    | false =>
      rw [ReferenceVisitor.visitExpr, anyConflict]
      simp only [Bool.false_or, if_neg Bool.false_ne_true]
      exact refVisitList_eq_any bp ids t _ ch
/-- The forest version of `refVisitExpr_eq_any`. -/
theorem refVisitList_eq_any (bp : BindingLookup) (ids : List Nat) (t : Span)
    (found : Bool) (es : List Expr) :
    ReferenceVisitor.visitList bp ids t found es =
      (found || anyConflictList bp ids t es) := by
  cases es with
  | nil => simp [ReferenceVisitor.visitList, anyConflictList]
  | cons e es =>
    rw [ReferenceVisitor.visitList, anyConflictList,
      refVisitList_eq_any bp ids t _ es, refVisitExpr_eq_any bp ids t found e]
    simp [Bool.or_assoc]
end

mutual
/-- `anyConflict` is the existence, among the nodes of the tree, of a node
passing `refTest`. -/
theorem anyConflict_iff (bp : BindingLookup) (ids : List Nat) (t : Span)
    (e : Expr) :
    anyConflict bp ids t e = true ↔
      ∃ n ∈ exprNodes e, refTest bp ids t n = true := by
  cases e with
  | mk i sp k ch =>
    rw [anyConflict, exprNodes]
    simp only [Bool.or_eq_true, List.mem_cons]
    constructor
    · intro h
      rcases h with h | h
      · exact ⟨.mk i sp k ch, Or.inl rfl, h⟩
      · rcases (anyConflictList_iff bp ids t ch).mp h with ⟨n, hn, hr⟩
        exact ⟨n, Or.inr hn, hr⟩
    · rintro ⟨n, hn | hn, hr⟩
      · exact Or.inl (hn ▸ hr)
      · exact Or.inr ((anyConflictList_iff bp ids t ch).mpr ⟨n, hn, hr⟩)
/-- The forest version of `anyConflict_iff`. -/
theorem anyConflictList_iff (bp : BindingLookup) (ids : List Nat) (t : Span)
    (es : List Expr) :
    anyConflictList bp ids t es = true ↔
      ∃ n ∈ exprNodesList es, refTest bp ids t n = true := by
  cases es with
  | nil => simp [anyConflictList, exprNodesList]
  | cons e es =>
    rw [anyConflictList, exprNodesList]
    simp only [Bool.or_eq_true, List.mem_append]
    constructor
    · intro h
      rcases h with h | h
      · rcases (anyConflict_iff bp ids t e).mp h with ⟨n, hn, hr⟩
        exact ⟨n, Or.inl hn, hr⟩
      · rcases (anyConflictList_iff bp ids t es).mp h with ⟨n, hn, hr⟩
        exact ⟨n, Or.inr hn, hr⟩
    · rintro ⟨n, hn | hn, hr⟩
      · exact Or.inl ((anyConflict_iff bp ids t e).mpr ⟨n, hn, hr⟩)
      · exact Or.inr ((anyConflictList_iff bp ids t es).mpr ⟨n, hn, hr⟩)
end

mutual
/-- Membership in `UnwrapVisitor`'s result is exactly: some node of the
subtree is a path resolving to a binding pattern with that id. -/
theorem mem_unwrapVisitExpr (bp : BindingLookup) (x : Nat) (e : Expr) :
    x ∈ UnwrapVisitor.visitExpr bp e ↔
      ∃ n ∈ exprNodes e, kindBinding bp n.kind = some x := by
  cases e with
  | mk i sp k ch =>
    rw [UnwrapVisitor.visitExpr, exprNodes]
    simp only [List.mem_append, List.mem_cons]
    constructor
    · intro h
      rcases h with h | h
      · refine ⟨.mk i sp k ch, Or.inl rfl, ?_⟩
        cases hk : kindBinding bp k with
        | some y => rw [hk] at h; simp at h; simp [Expr.kind, hk, h]
        | none => rw [hk] at h; simp at h
      · rcases (mem_unwrapVisitList bp x ch).mp h with ⟨n, hn, hr⟩
        exact ⟨n, Or.inr hn, hr⟩
    · rintro ⟨n, hn | hn, hr⟩
      · subst hn
        simp only [Expr.kind] at hr
        rw [hr]
        simp
      · exact Or.inr ((mem_unwrapVisitList bp x ch).mpr ⟨n, hn, hr⟩)
/-- The forest version of `mem_unwrapVisitExpr`. -/
theorem mem_unwrapVisitList (bp : BindingLookup) (x : Nat) (es : List Expr) :
    x ∈ UnwrapVisitor.visitList bp es ↔
      ∃ n ∈ exprNodesList es, kindBinding bp n.kind = some x := by
  cases es with
  | nil => simp [UnwrapVisitor.visitList, exprNodesList]
  | cons e es =>
    rw [UnwrapVisitor.visitList, exprNodesList]
    simp only [List.mem_append]
    constructor
    · intro h
      rcases h with h | h
      · rcases (mem_unwrapVisitExpr bp x e).mp h with ⟨n, hn, hr⟩
        exact ⟨n, Or.inl hn, hr⟩
      · rcases (mem_unwrapVisitList bp x es).mp h with ⟨n, hn, hr⟩
        exact ⟨n, Or.inr hn, hr⟩
    · rintro ⟨n, hn | hn, hr⟩
      · exact Or.inl ((mem_unwrapVisitExpr bp x e).mpr ⟨n, hn, hr⟩)
      · exact Or.inr ((mem_unwrapVisitList bp x es).mpr ⟨n, hn, hr⟩)
end

/-- `conflictFound` holds exactly when some node of the enclosing body
passes `refTest` against the collected identifiers and the `unwrap_or`
argument's span. -/
theorem conflictFound_iff (i : LintInput) :
    conflictFound i = true ↔
      ∃ n ∈ exprNodes i.body,
        refTest i.bindingPat (collectedIdentifiers i) i.unwrapArg.span n = true := by
  rw [conflictFound, refVisitExpr_eq_any]
  simp [anyConflict_iff]

/-- `check` succeeds exactly when all three guards pass, and then the
diagnostic is `emittedDiagnostic`. -/
theorem check_eq_some_iff (i : LintInput) (d : Diagnostic) :
    check i = some d ↔
      i.recvIsOption = true ∧ (!i.unwrapArgIsCopy && conflictFound i) = false ∧
        i.unwrapArg.span.ctxt = i.mapSpan.ctxt ∧ d = emittedDiagnostic i := by
  unfold check
  cases hr : i.recvIsOption <;>
    cases hc : !i.unwrapArgIsCopy && conflictFound i <;>
      by_cases hx : i.unwrapArg.span.ctxt = i.mapSpan.ctxt <;>
        simp [hr, hc, hx, eq_comm]

/-- In the `"None"` case the emitted diagnostic renames to `and_then` and
contains exactly the two base suggestion parts. -/
theorem emittedDiagnostic_none (i : LintInput)
    (h : (snippet_with_applicability i.snippetOpt i.unwrapArg.span ".."
        Applicability.MachineApplicable).1 = "None") :
    emittedDiagnostic i =
      ⟨i.expr.span,
       "called `map(<f>).unwrap_or(None)` on an `Option` value. This can be done more directly by calling `and_then(<f>)` instead",
       "use `and_then(<f>)` instead",
       [(i.mapSpan, "and_then"),
        (Span.with_lo i.expr.span i.unwrapRecv.span.hi, "")],
       (snippet_with_applicability i.snippetOpt i.unwrapArg.span ".."
        Applicability.MachineApplicable).2⟩ := by
  simp only [emittedDiagnostic, h]
  rfl

/-- In the general case the emitted diagnostic renames to `map_or` and
contains the two base parts plus the zero-width insertion of the snippet
followed by `", "` at the start of the `map` argument. -/
theorem emittedDiagnostic_general (i : LintInput)
    (h : (snippet_with_applicability i.snippetOpt i.unwrapArg.span ".."
        Applicability.MachineApplicable).1 ≠ "None") :
    emittedDiagnostic i =
      ⟨i.expr.span,
       "called `map(<f>).unwrap_or(<a>)` on an `Option` value. This can be done more directly by calling `map_or(<a>, <f>)` instead",
       "use `map_or(<a>, <f>)` instead",
       [(i.mapSpan, "map_or"),
        (Span.with_lo i.expr.span i.unwrapRecv.span.hi, ""),
        (Span.with_hi i.mapArg.span i.mapArg.span.lo,
         (snippet_with_applicability i.snippetOpt i.unwrapArg.span ".."
          Applicability.MachineApplicable).1 ++ ", ")],
       (snippet_with_applicability i.snippetOpt i.unwrapArg.span ".."
        Applicability.MachineApplicable).2⟩ := by
  have hb : ((snippet_with_applicability i.snippetOpt i.unwrapArg.span ".."
      Applicability.MachineApplicable).1 == "None") = false := by
    simpa using h
  simp only [emittedDiagnostic, hb]
  rfl

/-- When snippet extraction cannot guarantee fidelity, `check`'s snippet
call returns the `".."` placeholder and downgrades the applicability to
`HasPlaceholders`. -/
theorem snippet_fail_downgrades (i : LintInput)
    (h : i.snippetOpt i.unwrapArg.span = none) :
    snippet_with_applicability i.snippetOpt i.unwrapArg.span ".."
        Applicability.MachineApplicable =
      ("..", Applicability.HasPlaceholders) := by
  simp [snippet_with_applicability, h]

/-! ## The claims -/

/-- C1: For a candidate whose `unwrap_or` (fallback) argument has a
non-`Copy` (move-only) type, if any expression node in the enclosing body
whose span starts strictly before the fallback argument's span is a path
reference resolving to a binding identity in the Binding Collector's
output set, then `check` emits no suggestion. -/
theorem c1_earlier_reference_suppresses (i : LintInput)
    (hmove : i.unwrapArgIsCopy = false)
    (h : ∃ n ∈ exprNodes i.body,
        n.span.lo < i.unwrapArg.span.lo ∧
          pathRefsIdentifiers i.bindingPat (collectedIdentifiers i) n = true) :
    check i = none := by
  rcases h with ⟨n, hn, hlo, hp⟩
  have hcf : conflictFound i = true :=
    (conflictFound_iff i).mpr
      ⟨n, hn, by simp [refTest, span_lt_of_lo_lt _ _ hlo, hp]⟩
  unfold check
  cases hr : i.recvIsOption <;> simp [hr, hmove, hcf]

/-- Witness for `c1_earlier_reference_suppresses`: the issue-10579 shape
`x.get(0..1).map(|s| s.to_vec()).unwrap_or(x)` is declined. -/
theorem c1_earlier_reference_suppresses_witness :
    exConflict.unwrapArgIsCopy = false ∧ check exConflict = none := by
  refine ⟨rfl, c1_earlier_reference_suppresses exConflict rfl ?_⟩
  decide

/-- C2: For a `Copy` fallback argument the Binding Collector's and Conflict
Scanner's results cannot affect the outcome — `check` is invariant under
arbitrary replacement of the enclosing body and of the binding lookup —
and the suggestion is emitted exactly when the receiver is an `Option` and
the expansion-context check passes. -/
theorem c2_copy_ignores_scanner (i : LintInput)
    (h : i.unwrapArgIsCopy = true) :
    (∀ b bp, check i = check (withBodyBinding i b bp)) ∧
      (check i).isSome =
        (i.recvIsOption && (i.unwrapArg.span.ctxt == i.mapSpan.ctxt)) := by
  constructor
  · intro b bp
    unfold check
    simp [withBodyBinding, h, emittedDiagnostic]
  · unfold check
    cases hr : i.recvIsOption <;>
      by_cases hx : i.unwrapArg.span.ctxt = i.mapSpan.ctxt <;>
        simp [hr, hx, h]

/-- Witness for `c2_copy_ignores_scanner`: with a `Copy` fallback argument
the conflicting body of `exConflict` no longer suppresses the lint. -/
theorem c2_copy_ignores_scanner_witness :
    check exCopy = check (withBodyBinding exCopy exChain exBindingPat) ∧
      (check exCopy).isSome = true := by
  have h := c2_copy_ignores_scanner exCopy rfl
  exact ⟨h.1 exChain exBindingPat, by rw [h.2]; decide⟩

/-- C3: When the `unwrap_or` argument's span and the `map` call's span
carry different expansion-context tags, `check` emits no suggestion,
whatever the movability classification and the scanner's verdict. -/
theorem c3_ctxt_mismatch_declines (i : LintInput)
    (h : i.unwrapArg.span.ctxt ≠ i.mapSpan.ctxt) :
    check i = none := by
  unfold check
  cases hr : i.recvIsOption <;>
    cases hc : !i.unwrapArgIsCopy && conflictFound i <;> simp [hr, hc, h]

/-- Witness for `c3_ctxt_mismatch_declines` at `exCtxt` (context tags 0
versus 1). -/
theorem c3_ctxt_mismatch_declines_witness :
    exCtxt.unwrapArg.span.ctxt ≠ exCtxt.mapSpan.ctxt ∧ check exCtxt = none :=
  ⟨by decide, c3_ctxt_mismatch_declines exCtxt (by decide)⟩

/-- C4 counterexample: at `exDistinct` the identifier set handed to the
Conflict Scanner is the one collected from the `unwrap_or` argument
(binding 5) and differs from the set of bindings referenced inside the
`map` (transform) call's argument (binding 7), so the claim as stated is
false. -/
theorem c4_counterexample :
    5 ∈ collectedIdentifiers exDistinct ∧
      5 ∉ UnwrapVisitor.visitExpr exDistinct.bindingPat exDistinct.mapArg ∧
      7 ∈ UnwrapVisitor.visitExpr exDistinct.bindingPat exDistinct.mapArg ∧
      7 ∉ collectedIdentifiers exDistinct := by
  decide

/-- C4 (amended): the Binding Collector walks the `unwrap_or` (fallback)
argument's sub-tree, and the set of binding identities handed to the
Conflict Scanner equals the set of local-binding introduction identities
referenced by path anywhere inside the fallback argument. -/
theorem c4_collector_walks_fallback_argument (i : LintInput) (x : Nat) :
    x ∈ collectedIdentifiers i ↔
      ∃ n ∈ exprNodes i.unwrapArg, kindBinding i.bindingPat n.kind = some x :=
  mem_unwrapVisitExpr i.bindingPat x i.unwrapArg

/-- C5: For every emitted suggestion the rewrite form depends solely on
whether the fallback argument's extracted source text equals `"None"`:
then the method is renamed to `and_then` and no argument text is inserted
(only the two base parts are present), otherwise it is renamed to `map_or`
and the diagnostics use the generic `<a>` placeholder label. -/
theorem c5_rewrite_form (i : LintInput) (d : Diagnostic)
    (h : check i = some d) :
    ((snippet_with_applicability i.snippetOpt i.unwrapArg.span ".."
        Applicability.MachineApplicable).1 = "None" →
      d.suggestion.head? = some (i.mapSpan, "and_then") ∧
        d.suggestion.length = 2 ∧
        d.helpMsg = "use `and_then(<f>)` instead" ∧
        d.msg = "called `map(<f>).unwrap_or(None)` on an `Option` value. This can be done more directly by calling `and_then(<f>)` instead") ∧
    ((snippet_with_applicability i.snippetOpt i.unwrapArg.span ".."
        Applicability.MachineApplicable).1 ≠ "None" →
      d.suggestion.head? = some (i.mapSpan, "map_or") ∧
        d.helpMsg = "use `map_or(<a>, <f>)` instead" ∧
        d.msg = "called `map(<f>).unwrap_or(<a>)` on an `Option` value. This can be done more directly by calling `map_or(<a>, <f>)` instead") := by
  have hd : d = emittedDiagnostic i := ((check_eq_some_iff i d).mp h).2.2.2
  subst hd
  constructor
  · intro hs
    rw [emittedDiagnostic_none i hs]
    exact ⟨rfl, rfl, rfl, rfl⟩
  · intro hs
    rw [emittedDiagnostic_general i hs]
    exact ⟨rfl, rfl, rfl⟩

/-- Witness for `c5_rewrite_form` at `exNone` (source text `None`). -/
theorem c5_rewrite_form_witness :
    (emittedDiagnostic exNone).suggestion.head? =
        some (exNone.mapSpan, "and_then") ∧
      (emittedDiagnostic exNone).suggestion.length = 2 := by
  have h := (c5_rewrite_form exNone (emittedDiagnostic exNone)
    (by decide)).1 (by decide)
  exact ⟨h.1, h.2.1⟩

/-- C6: In the general (non-`"None"`) branch the multipart edit is exactly
the three parts (rename at the `map` span, deletion from the end of the
fallback receiver to the end of the chain, zero-width insertion of the
fallback text plus `", "` before the `map` argument), and in the `"None"`
branch exactly the first two. -/
theorem c6_multipart_parts (i : LintInput) (d : Diagnostic)
    (h : check i = some d) :
    ((snippet_with_applicability i.snippetOpt i.unwrapArg.span ".."
        Applicability.MachineApplicable).1 ≠ "None" →
      d.suggestion =
        [(i.mapSpan, "map_or"),
         (Span.with_lo i.expr.span i.unwrapRecv.span.hi, ""),
         (Span.with_hi i.mapArg.span i.mapArg.span.lo,
          (snippet_with_applicability i.snippetOpt i.unwrapArg.span ".."
            Applicability.MachineApplicable).1 ++ ", ")]) ∧
    ((snippet_with_applicability i.snippetOpt i.unwrapArg.span ".."
        Applicability.MachineApplicable).1 = "None" →
      d.suggestion =
        [(i.mapSpan, "and_then"),
         (Span.with_lo i.expr.span i.unwrapRecv.span.hi, "")]) := by
  have hd : d = emittedDiagnostic i := ((check_eq_some_iff i d).mp h).2.2.2
  subst hd
  constructor
  · intro hs
    rw [emittedDiagnostic_general i hs]
  · intro hs
    rw [emittedDiagnostic_none i hs]

/-- Witness for `c6_multipart_parts` at `exOk` (source text `x`): the
three parts rename `map` to `map_or` at span 2–5, delete span 7–12, and
insert `"x, "` at the zero-width span 4–4. -/
theorem c6_multipart_parts_witness :
    (emittedDiagnostic exOk).suggestion =
      [(⟨2, 5, 0⟩, "map_or"), (⟨7, 12, 0⟩, ""), (⟨4, 4, 0⟩, "x, ")] := by
  have h := (c6_multipart_parts exOk (emittedDiagnostic exOk)
    (by decide)).1 (by decide)
  rw [h]
  decide

/-- C7: the Conflict Scanner commits to the first match: a set
`found_reference` flag is never cleared (a traversal entered with the flag
set returns immediately with it still set, visiting no children), and the
scan's verdict is the flag joined with the existence of a matching node,
so later nodes cannot change a committed result. -/
theorem c7_first_match_wins (bp : BindingLookup) (ids : List Nat) (t : Span)
    (found : Bool) (e : Expr) :
    ReferenceVisitor.visitExpr bp ids t true e = true ∧
      ReferenceVisitor.visitExpr bp ids t found e =
        (found || anyConflict bp ids t e) :=
  ⟨refVisitExpr_absorb bp ids t e, refVisitExpr_eq_any bp ids t found e⟩

/-- C8: every precondition failure makes `check` return `none` silently
(there is no error channel), while a snippet-extraction fidelity failure
does not abort: the suggestion is still emitted, with its applicability
downgraded from `MachineApplicable` to `HasPlaceholders`. -/
theorem c8_silent_decline_and_downgrade (i : LintInput) :
    (i.recvIsOption = false → check i = none) ∧
    ((!i.unwrapArgIsCopy && conflictFound i) = true → check i = none) ∧
    (i.unwrapArg.span.ctxt ≠ i.mapSpan.ctxt → check i = none) ∧
    (i.recvIsOption = true →
      (!i.unwrapArgIsCopy && conflictFound i) = false →
      i.unwrapArg.span.ctxt = i.mapSpan.ctxt →
      i.snippetOpt i.unwrapArg.span = none →
      check i = some (emittedDiagnostic i) ∧
        (emittedDiagnostic i).applicability = Applicability.HasPlaceholders) := by
  refine ⟨?_, ?_, ?_, ?_⟩
  · intro h
    unfold check
    simp [h]
  · intro h
    unfold check
    cases hr : i.recvIsOption <;> simp [hr, h]
  · intro h
    unfold check
    cases hr : i.recvIsOption <;>
      cases hc : !i.unwrapArgIsCopy && conflictFound i <;> simp [hr, hc, h]
  · intro h1 h2 h3 h4
    have hs := snippet_fail_downgrades i h4
    have hne : (snippet_with_applicability i.snippetOpt i.unwrapArg.span ".."
        Applicability.MachineApplicable).1 ≠ "None" := by
      rw [hs]
      decide
    refine ⟨(check_eq_some_iff i _).mpr ⟨h1, h2, h3, rfl⟩, ?_⟩
    rw [emittedDiagnostic_general i hne, hs]

/-- Witness for `c8_silent_decline_and_downgrade`: a non-`Option` receiver
is declined silently, and `exSnipFail` (whose snippet oracle fails) is
still linted with `HasPlaceholders` applicability. -/
theorem c8_silent_decline_and_downgrade_witness :
    check exNotOption = none ∧
      check exSnipFail = some (emittedDiagnostic exSnipFail) ∧
      (emittedDiagnostic exSnipFail).applicability =
        Applicability.HasPlaceholders := by
  refine ⟨(c8_silent_decline_and_downgrade exNotOption).1 rfl, ?_, ?_⟩
  · exact ((c8_silent_decline_and_downgrade exSnipFail).2.2.2 rfl (by decide)
      rfl rfl).1
  · exact ((c8_silent_decline_and_downgrade exSnipFail).2.2.2 rfl (by decide)
      rfl rfl).2

/-- C9: `check` is deterministic — on the same syntax tree and identical
host-query answers it yields the same decision, the same collected
identifier set, the same scanner verdict and a byte-identical
diagnostic. -/
theorem c9_deterministic (i j : LintInput) (h : i = j) :
    check i = check j ∧ collectedIdentifiers i = collectedIdentifiers j ∧
      conflictFound i = conflictFound j ∧
      emittedDiagnostic i = emittedDiagnostic j := by
  subst h
  exact ⟨rfl, rfl, rfl, rfl⟩

/-- Witness for `c9_deterministic` at `exOk`. -/
theorem c9_deterministic_witness : check exOk = check exOk :=
  (c9_deterministic exOk exOk rfl).1

/-- C10 counterexample: at `exClone`
(`o.map(|v| f(v)).unwrap_or(x.clone())`) every path reference to the
collected binding lies at or inside the fallback argument's span — none
starts strictly before it — yet the Conflict Scanner reports a conflict
and the suggestion is suppressed, because the scanner's test is the full
lexicographic `Span` order, under which the inner reference (same start,
smaller end) precedes the argument's span.  The claim as stated is
false. -/
theorem c10_counterexample :
    (∀ n ∈ exprNodes exClone.body,
        pathRefsIdentifiers exClone.bindingPat (collectedIdentifiers exClone) n =
            true →
          ¬n.span.lo < exClone.unwrapArg.span.lo) ∧
      exClone.unwrapArgIsCopy = false ∧
      exClone.recvIsOption = true ∧
      exClone.unwrapArg.span.ctxt = exClone.mapSpan.ctxt ∧
      conflictFound exClone = true ∧ check exClone = none := by
  decide

/-- C10 (amended): a binding never conflicts on account of references that
do not precede the fallback argument's span in the lexicographic
`(lo, hi, ctxt)` span order: if no path reference to a collected binding
has a span `Span.lt`-below the fallback argument's span, the Conflict
Scanner reports no conflict and the suggestion is not suppressed on that
account (in particular a binding whose only reference is the fallback
argument itself, at exactly its span, never conflicts with itself). -/
theorem c10_no_self_conflict (i : LintInput)
    (h : ∀ n ∈ exprNodes i.body,
        pathRefsIdentifiers i.bindingPat (collectedIdentifiers i) n = true →
          Span.lt n.span i.unwrapArg.span = false) :
    conflictFound i = false ∧
      (i.recvIsOption = true → i.unwrapArg.span.ctxt = i.mapSpan.ctxt →
        check i = some (emittedDiagnostic i)) := by
  have hcf : conflictFound i = false := by
    cases hc : conflictFound i
    · rfl
    · rcases (conflictFound_iff i).mp hc with ⟨n, hn, hr⟩
      rw [refTest, Bool.and_eq_true] at hr
      rw [h n hn hr.2] at hr
      exact absurd hr.1 (by simp)
  refine ⟨hcf, fun h1 h3 => (check_eq_some_iff i _).mpr ⟨h1, ?_, h3, rfl⟩⟩
  simp [hcf]

/-- Witness for `c10_no_self_conflict` at `exOk`, whose only reference to
binding 5 is the fallback argument itself. -/
theorem c10_no_self_conflict_witness :
    conflictFound exOk = false ∧ check exOk = some (emittedDiagnostic exOk) := by
  have h := c10_no_self_conflict exOk (by decide)
  exact ⟨h.1, h.2 rfl rfl⟩
